import Mathlib

/-!
Verification development for the kash_stash queue agent
(src/queue_boss.py, src/bash_executor.py, src/python_executor.py,
src/powershell_executor.py).  Each definition is a shallow embedding of the
corresponding Python function; machine-level library calls (HTTP, the clock,
datetime parsing, json.loads) are passed in as explicit inputs or function
parameters, so every definition is executable.
-/

namespace KashStash

/-- A Python value appearing as a digest id: an integer, a string, or None
(the value of entry.get when the key is missing).  str() of these values is
pyStr below. -/
inductive PyVal where
  | pyint (n : Int)
  | pystr (s : String)
  | pynone
deriving DecidableEq, BEq

/-- Python str() on a PyVal: decimal form for integers, identity for strings,
and the literal None text for missing values. -/
def pyStr : PyVal → String
  | .pyint n => toString n
  | .pystr s => s
  | .pynone => "None"

/-- A tag as delivered by the pod: either a plain string or a dictionary with
an optional name field (tag.get with default empty). -/
inductive PyTag where
  | tstr (s : String)
  | tdict (name : Option String)
deriving DecidableEq, BEq

/-- Tag normalization used throughout queue_boss.py: a dictionary tag yields
its name field (empty when absent), any other tag is passed through str(). -/
def tag_name : PyTag → String
  | .tstr s => s
  | .tdict n => n.getD ""

/-- The tags field of a digest: a comma separated string, a list of tags, or
some other shape (which the code treats as an empty tag list). -/
inductive TagsField where
  | fstr (s : String)
  | flist (l : List PyTag)
  | fother
deriving DecidableEq, BEq

/-- Python str.isspace characters stripped by str.strip(). -/
def is_py_space (c : Char) : Bool :=
  c = ' ' || c = '\t' || c = '\n' || c = '\r' || c = '\x0b' || c = '\x0c'

/-- Python str.strip(): drop leading and trailing whitespace. -/
def py_strip (s : String) : String :=
  String.mk (((s.toList.dropWhile is_py_space).reverse.dropWhile is_py_space).reverse)

/-- Python str.endswith for a single-character suffix test, on the character
list. -/
def py_endswith (s suffix : String) : Bool :=
  let l := s.toList
  let p := suffix.toList
  decide (p.length ≤ l.length) && (l.drop (l.length - p.length) == p)

/-- Python s.split on a separator character, on the character list. -/
def py_split_on (sep : Char) (s : String) : List String :=
  (s.toList.foldr
    (fun c acc =>
      match acc with
      | cur :: rest => if c = sep then [] :: (cur :: rest) else (c :: cur) :: rest
      | [] => [[c]])
    [[]]).map String.mk

/-- parse_tags from queue_boss.py (string branch): split a comma separated
string, strip each item, and drop the empty ones.  An empty or missing string
yields the empty list. -/
def parse_tags (s : String) : List String :=
  if s = "" then []
  else ((py_split_on ',' s).map py_strip).filter (fun i => i ≠ "")

/-- A feed entry (digest) as returned by the pod API.  Absent dictionary keys
are none. -/
structure Entry where
  id : PyVal := .pynone
  content : Option String := none
  tags : TagsField := .fstr ""
  created_at : Option String := none
  created : Option String := none
  timestamp : Option String := none
deriving DecidableEq, BEq

/-- Pythonic x or y or z over optional strings: the first value that is
present and non-empty (the empty string is falsy). -/
def first_truthy : List (Option String) → Option String
  | [] => none
  | o :: rest =>
    match o with
    | some s => if s ≠ "" then some s else first_truthy rest
    | none => first_truthy rest

/-- The timestamp chain used by fetch_digests_with_lookback:
created_at or created or timestamp. -/
def entry_timestamp (e : Entry) : Option String :=
  first_truthy [e.created_at, e.created, e.timestamp]

/-- A datetime.fromisoformat result: either naive (no timezone) or aware,
each carrying an epoch-second value.  Comparing a naive with an aware value
raises in Python, which dt_ge models by returning none. -/
inductive PyDT where
  | naive (t : Int)
  | aware (t : Int)
deriving DecidableEq, BEq

/-- The comparison a >= b on datetimes: defined within one kind, raising
(none) across kinds. -/
def dt_ge (a b : PyDT) : Option Bool :=
  match a, b with
  | .naive x, .naive y => some (decide (x ≥ y))
  | .aware x, .aware y => some (decide (x ≥ y))
  | _, _ => none

/-- The Z-suffix rewrite in fetch_digests_with_lookback: a trailing Z becomes
a +00:00 offset before parsing. -/
def fix_z (s : String) : String :=
  if py_endswith s "Z" then String.mk s.toList.dropLast ++ "+00:00" else s

/-- The per-entry decision of fetch_digests_with_lookback: entries with no
timestamp are included; a parse failure is caught and the entry included; a
comparison failure (aware versus naive) is caught and the entry included;
otherwise the entry is included iff its timestamp is at or after the cutoff.
The parse parameter stands for datetime.fromisoformat. -/
def lookback_include (parse : String → Option PyDT) (cutoff : PyDT) (e : Entry) : Bool :=
  match entry_timestamp e with
  | none => true
  | some s =>
    match parse (fix_z s) with
    | none => true
    | some dt =>
      match dt_ge dt cutoff with
      | none => true
      | some b => b

/-- PodDigestFetcher.fetch_digests_with_lookback, with the result of
fetch_digests_by_tags supplied as the digests input and utcnow supplied as a
naive epoch value nowUtc. -/
def fetch_digests_with_lookback (parse : String → Option PyDT) (nowUtc : Int)
    (lookback_seconds : Int) (digests : List Entry) : List Entry :=
  digests.filter (lookback_include parse (.naive (nowUtc - lookback_seconds)))

/-- The single-digest cache of PodDigestFetcher: digest id to
(content, stored-at local epoch seconds). -/
abbrev DigestCache := List (PyVal × String × Int)

/-- Python dict assignment on the cache. -/
def cache_set (cache : DigestCache) (id : PyVal) (content : String) (now : Int) :
    DigestCache :=
  (id, content, now) :: cache.filter (fun p => p.1 ≠ id)

instance exceptDecEq {α β : Type} [DecidableEq α] [DecidableEq β] :
    DecidableEq (Except α β) := fun x y =>
  match x, y with
  | .ok a, .ok b =>
    if h : a = b then isTrue (by rw [h]) else isFalse (by simp [h])
  | .error a, .error b =>
    if h : a = b then isTrue (by rw [h]) else isFalse (by simp [h])
  | .ok _, .error _ => isFalse (by simp)
  | .error _, .ok _ => isFalse (by simp)

/-- Result of fetch_digest_by_id: the returned content or the raised lookup
error, the cache afterwards, and whether the network (fetch_digests_by_tags)
was consulted. -/
structure FetchByIdOut where
  result : Except String String
  cache : DigestCache
  network : Bool
deriving DecidableEq

/-- The check-cache block of fetch_digest_by_id: a cached content is returned
when use_cache is on, cache_minutes is not 0, the id is in the cache, and
either cache_minutes is -1 or the cache age in minutes is below
cache_minutes.  The age mirrors the source exactly: it is the seconds
component of the elapsed timedelta — the elapsed seconds modulo 86400 —
divided by 60, so the freshness test age_minutes < cache_minutes is
(nowLocal - ts) % 86400 < cache_minutes * 60. -/
def cache_hit (cache : DigestCache) (nowLocal : Int) (digest_id : PyVal)
    (use_cache : Bool) (cache_minutes : Int) : Option String :=
  if use_cache && (cache_minutes != 0) then
    match cache.lookup digest_id with
    | some (content, ts) =>
      if cache_minutes == -1 || ((nowLocal - ts) % 86400 < cache_minutes * 60) then
        some content
      else none
    | none => none
  else none

/-- PodDigestFetcher.fetch_digest_by_id.  The result of the inner
fetch_digests_by_tags call is supplied as the digests input and datetime.now
as nowLocal (epoch seconds).  On a cache miss the tag result set is searched
for the entry whose str() id matches, the cache is populated unless
cache_minutes is 0, and a missing id raises the lookup error. -/
def fetch_digest_by_id (cache : DigestCache) (nowLocal : Int) (digest_id : PyVal)
    (digests : List Entry) (use_cache : Bool) (cache_minutes : Int)
    (search_tags : String) : FetchByIdOut :=
  match cache_hit cache nowLocal digest_id use_cache cache_minutes with
  | some content => ⟨.ok content, cache, false⟩
  | none =>
    match digests.find? (fun e => pyStr e.id == pyStr digest_id) with
    | some e =>
      let content := e.content.getD ""
      let cache1 := if cache_minutes != 0 then cache_set cache digest_id content nowLocal
                    else cache
      ⟨.ok content, cache1, true⟩
    | none =>
      ⟨.error ("Digest " ++ pyStr digest_id ++ " not found in tags: " ++ search_tags),
       cache, true⟩

/-! Base64 and UTF-8 decoding, modelling base64.b64decode followed by
bytes.decode of the Python standard library. -/

/-- The value of a standard base64 alphabet character, none otherwise. -/
def b64charVal (c : Char) : Option Nat :=
  if 65 ≤ c.toNat ∧ c.toNat ≤ 90 then some (c.toNat - 65)
  else if 97 ≤ c.toNat ∧ c.toNat ≤ 122 then some (c.toNat - 71)
  else if 48 ≤ c.toNat ∧ c.toNat ≤ 57 then some (c.toNat + 4)
  else if c = '+' then some 62
  else if c = '/' then some 63
  else none

/-- Turn a stream of 6-bit values into bytes, dropping any incomplete
trailing bits. -/
def b64bits : List Nat → Nat → Nat → List Nat
  | [], _, _ => []
  | v :: rest, bits, nbits =>
    let bits1 := bits * 64 + v
    let nb := nbits + 6
    if nb ≥ 8 then
      (bits1 / 2 ^ (nb - 8)) % 256 :: b64bits rest (bits1 % 2 ^ (nb - 8)) (nb - 8)
    else
      b64bits rest bits1 nb

/-- base64.b64decode with validate false: characters outside the alphabet and
the padding character are discarded, the cleaned text must have length a
multiple of four, data stops at the first padding character, and a leftover
of one data character is a padding error (none). -/
def b64decodeBytes (s : String) : Option (List Nat) :=
  let cleaned := s.toList.filter (fun c => (b64charVal c).isSome || c = '=')
  if cleaned.length % 4 ≠ 0 then none
  else
    let data := (cleaned.takeWhile (fun c => c ≠ '=')).filterMap b64charVal
    if data.length % 4 = 1 then none
    else some (b64bits data 0 0)

/-- UTF-8 decoding of a byte list, none on malformed input (the UnicodeDecodeError
of bytes.decode). -/
def utf8go : List Nat → Option (List Char)
  | [] => some []
  | b :: rest =>
    if b < 128 then
      match utf8go rest with
      | some cs => some (Char.ofNat b :: cs)
      | none => none
    else if b < 194 then none
    else if b ≤ 223 then
      match rest with
      | b2 :: rest2 =>
        if b2 / 64 = 2 then
          match utf8go rest2 with
          | some cs => some (Char.ofNat ((b % 32) * 64 + b2 % 64) :: cs)
          | none => none
        else none
      | [] => none
    else if b ≤ 239 then
      match rest with
      | b2 :: b3 :: rest3 =>
        if b2 / 64 = 2 ∧ b3 / 64 = 2 ∧ (b ≠ 224 ∨ b2 ≥ 160) ∧ (b ≠ 237 ∨ b2 < 160) then
          match utf8go rest3 with
          | some cs => some (Char.ofNat ((b % 16) * 4096 + (b2 % 64) * 64 + b3 % 64) :: cs)
          | none => none
        else none
      | _ => none
    else if b ≤ 244 then
      match rest with
      | b2 :: b3 :: b4 :: rest4 =>
        if b2 / 64 = 2 ∧ b3 / 64 = 2 ∧ b4 / 64 = 2 ∧ (b ≠ 240 ∨ b2 ≥ 144) ∧
            (b ≠ 244 ∨ b2 < 144) then
          match utf8go rest4 with
          | some cs =>
            some (Char.ofNat ((b % 8) * 262144 + (b2 % 64) * 4096 + (b3 % 64) * 64 + b4 % 64)
              :: cs)
          | none => none
        else none
      | _ => none
    else none

/-- base64.b64decode(s).decode of the source: none models the raised
exception.  The empty string decodes to the empty string. -/
def pyB64decodeUtf8 (s : String) : Option String :=
  match b64decodeBytes s with
  | none => none
  | some bytes =>
    match utf8go bytes with
    | some cs => some (String.mk cs)
    | none => none

/-! The executor set: BashExecutor.run_script, PythonExecutor.run_script and
PowerShellExecutor.run_script.  The operating system and subprocess module
are modelled by explicit outcome inputs; a returned Except.error models an
exception propagating out of run_script into the caller. -/

/-- The executor result dictionary. -/
structure ExecResult where
  stdout : String
  stderr : String
  retcode : Int
deriving DecidableEq

/-- The outcome of the subprocess.run call: normal completion, a
TimeoutExpired whose str() text is msg, a FileNotFoundError whose str() text
is msg, or any other exception with str() text msg. -/
inductive SubprocOutcome where
  | completed (out err : String) (code : Int)
  | timedOut (msg : String)
  | fileNotFound (msg : String)
  | otherError (msg : String)
deriving DecidableEq

/-- BashExecutor.run_script.  The temporary-file write happens before the try
block, so a write failure (write = some msg) propagates; inside the try every
exception is caught and turned into retcode -1 with str of the exception as
stderr; the finally block calls os.remove without a guard, so a removal
failure (remove = some msg) also propagates, discarding the computed
return value. -/
def bash_run_script (write : Option String) (sub : SubprocOutcome)
    (remove : Option String) : Except String ExecResult :=
  match write with
  | some e => .error e
  | none =>
    let r : ExecResult :=
      match sub with
      | .completed o er c => ⟨o, er, c⟩
      | .timedOut m => ⟨"", m, -1⟩
      | .fileNotFound m => ⟨"", m, -1⟩
      | .otherError m => ⟨"", m, -1⟩
    match remove with
    | some e => .error e
    | none => .ok r

/-- PythonExecutor.run_script.  The temporary-file write is wrapped in its
own try and returns retcode -1 on failure; timeouts and missing interpreters
produce their dedicated messages; the finally cleanup is guarded by its own
try/except, so no path raises. -/
def python_run_script (write : Option String) (sub : SubprocOutcome)
    (timeout : Int) (python_command : String) : Except String ExecResult :=
  match write with
  | some e => .ok ⟨"", "Failed to write script: " ++ e, -1⟩
  | none =>
    match sub with
    | .completed o er c => .ok ⟨o, er, c⟩
    | .timedOut _ => .ok ⟨"", "Script timed out after " ++ toString timeout ++ " seconds", -1⟩
    | .fileNotFound _ => .ok ⟨"", "Python executable not found: " ++ python_command, -1⟩
    | .otherError m => .ok ⟨"", m, -1⟩

/-- PowerShellExecutor.run_script.  The temporary-file write happens before
the try block, so a write failure propagates; the finally cleanup is guarded,
so nothing else raises. -/
def powershell_run_script (write : Option String) (sub : SubprocOutcome)
    (timeout : Int) : Except String ExecResult :=
  match write with
  | some e => .error e
  | none =>
    match sub with
    | .completed o er c => .ok ⟨o, er, c⟩
    | .timedOut _ => .ok ⟨"", "Script timed out after " ++ toString timeout ++ " seconds", -1⟩
    | .fileNotFound _ =>
      .ok ⟨"", "PowerShell not found. Please install PowerShell Core (pwsh) from https://github.com/PowerShell/PowerShell", -1⟩
    | .otherError m => .ok ⟨"", m, -1⟩

/-! The child-process environment built by the executors.  The environment is
an association list; envSet models a Python dict assignment and envGet a dict
read. -/

/-- Dict assignment env[k] = v on an association-list environment: existing
bindings of the key are removed and the new binding appended. -/
def envSet : List (String × String) → String → String → List (String × String)
  | [], k, v => [(k, v)]
  | p :: rest, k, v =>
    if p.1 = k then envSet rest k v else p :: envSet rest k v

/-- Dict lookup env.get(k): the binding of the key, if any. -/
def envGet : List (String × String) → String → Option String
  | [], _ => none
  | p :: rest, k => if p.1 = k then some p.2 else envGet rest k

/-- The job digest handed to an executor: its id (absent keys give the empty
string through get) and its tags field. -/
structure WorkerDigest where
  id : Option PyVal := none
  tags : TagsField := .flist []
deriving DecidableEq

/-- The JOB_DIGEST_TAGS value: a list of tags is normalized tag by tag and
joined with commas; any other shape is passed through str(), modelled for the
string shape. -/
def job_digest_tags_value : TagsField → String
  | .flist l => String.intercalate "," (l.map tag_name)
  | .fstr s => s
  | .fother => ""

/-- The environment block of PythonExecutor.run_script: the parent
environment, plus JOB_DIGEST_ID and JOB_DIGEST_TAGS when a job digest is
present, plus JOB_NAME and JOB_TYPE. -/
def python_job_env (parent : List (String × String)) (job_name : String)
    (job_conf_type : Option String) (job_digest : Option WorkerDigest) :
    List (String × String) :=
  let env := parent
  let env :=
    match job_digest with
    | some jd =>
      let env := envSet env "JOB_DIGEST_ID" (match jd.id with
        | some v => pyStr v
        | none => "")
      envSet env "JOB_DIGEST_TAGS" (job_digest_tags_value jd.tags)
    | none => env
  envSet (envSet env "JOB_NAME" job_name) "JOB_TYPE" (job_conf_type.getD "")

/-- The environment block of PowerShellExecutor.run_script, identical in the
source to the python one. -/
def powershell_job_env (parent : List (String × String)) (job_name : String)
    (job_conf_type : Option String) (job_digest : Option WorkerDigest) :
    List (String × String) :=
  let env := parent
  let env :=
    match job_digest with
    | some jd =>
      let env := envSet env "JOB_DIGEST_ID" (match jd.id with
        | some v => pyStr v
        | none => "")
      envSet env "JOB_DIGEST_TAGS" (job_digest_tags_value jd.tags)
    | none => env
  envSet (envSet env "JOB_NAME" job_name) "JOB_TYPE" (job_conf_type.getD "")

/-- BashExecutor.run_script passes no env argument to subprocess.run: the
child inherits the parent environment unchanged and no JOB_ variable is
added. -/
def bash_job_env (parent : List (String × String)) : List (String × String) :=
  parent

/-! QueueBoss.process_queue_job: configuration parsing, the lock-age helper,
the candidate filter and the per-item claim/execute/publish step of the
worker loop. -/

/-- The queue_tag dictionary of a job configuration (the dict shape of the
queue_tag entry); absent keys are none. -/
structure QueueObjRaw where
  queue_tag : Option String := none
  lookback : Option String := none
  lock_digests : Option String := none
  lock_tag : Option String := none
  done_tags : Option String := none
  fail_tags : Option String := none
  retry_failed : Option String := none
deriving DecidableEq

/-- The job dictionary of a queue job (the dict case of queue_tag), with the
scalar fallbacks queried through job_conf.get. -/
structure JobConfRaw where
  queue_tag_obj : QueueObjRaw := {}
  lookback : Option String := none
  lock_digests : Option String := none
  lock_tag : Option String := none
  done_tags : Option String := none
  fail_tags : Option String := none
  retry_failed : Option String := none
  threads : Option Int := none
  timeout : Option Int := none
  logic_digest_id : Option String := none
  language : Option String := none
deriving DecidableEq

/-- The values process_queue_job extracts from the configuration before
spawning workers. -/
structure ParsedQueueConf where
  queue_tag : String
  lookback : String
  lock_digests : Bool
  lock_tag : String
  done_tags : List String
  fail_tags : List String
  retry_failed : Bool
  device_tag : String
  threads : Int
  timeout : Int
  logic_digest_id : Option String
  language : String
deriving DecidableEq

/-- The parameter-extraction prefix of QueueBoss.process_queue_job (the
queue_tag-is-a-dict case), including the parse of retry_failed.  The device
tag comes from the endpoint DEVICE entry (empty when absent, matching Python
falsiness). -/
def parse_queue_conf (job_name : String) (device : String) (jc : JobConfRaw) :
    ParsedQueueConf :=
  let qo := jc.queue_tag_obj
  { queue_tag := qo.queue_tag.getD ""
    lookback := qo.lookback.getD (jc.lookback.getD "2m")
    lock_digests := (qo.lock_digests.getD (jc.lock_digests.getD "y")).toLower ≠ "n"
    lock_tag := qo.lock_tag.getD (jc.lock_tag.getD (job_name ++ "-lock"))
    done_tags := parse_tags (qo.done_tags.getD (jc.done_tags.getD (job_name ++ "-done")))
    fail_tags := parse_tags (qo.fail_tags.getD (jc.fail_tags.getD (job_name ++ "-fail")))
    retry_failed := (qo.retry_failed.getD (jc.retry_failed.getD "y")).toLower = "y"
    device_tag := device
    threads := jc.threads.getD 1
    timeout := jc.timeout.getD 900
    logic_digest_id := jc.logic_digest_id
    language := jc.language.getD "bash" }

/-- QueueBoss._lock_digest_age_sec: the creation time is created or
created_at, falling back to timestamp; a missing time gives the 1e9 sentinel,
as does a failed parse or a failed naive-minus-aware subtraction (both raise
and are caught).  The parse parameter models datetime.fromisoformat composed
with the subtraction from utcnow: none stands for either failure. -/
def lock_digest_age_sec (parse : String → Option Int) (nowEpoch : Int) (d : Entry) :
    Int :=
  match first_truthy [d.created, d.created_at, d.timestamp] with
  | none => 1000000000
  | some s =>
    match parse s with
    | some t => nowEpoch - t
    | none => 1000000000

/-- The digest-id to lock-digest map of the worker loop: keys are the trimmed
content strings of the lock digests, empty keys excluded, a later digest
overwriting an earlier one (dict assignment). -/
def locked_map_get (lockList : List Entry) (id : String) : Option Entry :=
  (lockList.filter
    (fun d => (py_strip (d.content.getD "") == id)
      && (py_strip (d.content.getD "") != ""))).getLast?

/-- The tag list of a done digest in the worker loop: a string field is run
through parse_tags, a list field is used as is, any other shape gives the
empty list. -/
def tags_as_list : TagsField → List PyTag
  | .fstr s => (parse_tags s).map .tstr
  | .flist l => l
  | .fother => []

/-- The done-id extraction of the worker loop: every done digest contributes
the suffix after processed- of each of its tags that carries that prefix. -/
def done_ids_of (dones : List Entry) : List String :=
  dones.foldr
    (fun d acc =>
      (((tags_as_list d.tags).map tag_name).filterMap
        (fun tn => if tn.startsWith "processed-" then some (tn.drop 10) else none)) ++ acc)
    []

/-- The local lockfile store for one queue job: digest id mapped to the
created field of the JSON record written into the lockfile. -/
abbrev LockfileStore := List (String × String)

/-- The per-candidate decision of the worker loop filter. -/
inductive Decision where
  | skipDone
  | skipLocked
  | skipLockfile
  | work
deriving DecidableEq

/-- The candidate filter of the worker loop: skip a digest already in the
done-id set; skip a backend-locked digest whose lock age is below the
timeout (a stale lock falls through without touching the remote lock); skip
a digest whose local lockfile exists; otherwise the digest is work. -/
def candidate_decision (done_ids : List String) (lockList : List Entry)
    (st : LockfileStore) (parse : String → Option Int) (nowEpoch : Int)
    (timeout : Int) (id : String) : Decision :=
  if id ∈ done_ids then .skipDone
  else
    match locked_map_get lockList id with
    | some lockD =>
      if lock_digest_age_sec parse nowEpoch lockD < timeout then .skipLocked
      else if (st.lookup id).isSome then .skipLockfile
      else .work
    | none =>
      if (st.lookup id).isSome then .skipLockfile
      else .work

/-- The parse of the script stdout by json.loads: either not a JSON object
(the exception branch, giving the empty dict) or an object with optional
content and tags fields. -/
inductive ParsedOut where
  | notJson
  | obj (content : Option String) (tags : Option String)

/-- The outcome of handling one script result. -/
structure HandleOut where
  successful : Bool
  res_tags : List String
  body : String
deriving DecidableEq

/-- The result-interpretation block of the worker loop: success iff the exit
code is zero and the content field is present and non-empty; the tags are the
done or fail set, then processed-id, then the parsed output tags when the
tags key exists, then the job name; the body is the base64 decode of the
content, with the except branch giving a placeholder for non-empty content
and the raw stdout (or empty) otherwise. -/
def handle_result (done_tags fail_tags : List String) (job_name digest_id : String)
    (result : ExecResult) (parsed : ParsedOut) : HandleOut :=
  let content : Option String :=
    match parsed with
    | .notJson => none
    | .obj c _ => c
  let successful : Bool :=
    (result.retcode == 0) &&
    (match content with
     | some s => s != ""
     | none => false)
  let res_tags := if successful then done_tags else fail_tags
  let res_tags := res_tags ++ ["processed-" ++ digest_id]
  let res_tags := res_tags ++
    (match parsed with
     | .obj _ (some t) => parse_tags t
     | _ => [])
  let res_tags := res_tags ++ [job_name]
  let content_b64 := content.getD ""
  let body :=
    match pyB64decodeUtf8 content_b64 with
    | some s => s
    | none =>
      if content_b64 != "" then "[Invalid base64 result]"
      else if result.stdout != "" then result.stdout
      else ""
  ⟨successful, res_tags, body⟩

/-- A digest posted through post_digest: its content and its comma-joined tag
string. -/
structure PostedDigest where
  content : String
  tags : String
deriving DecidableEq

/-- Where the per-item processing of one work candidate ended. -/
inductive ItemOutcome where
  | lockfileExists
  | racedRemoteLock
  | racedRemoteDone
  | missingLogicId
  | scriptFetchFailed
  | badLanguage
  | ran (successful : Bool)
deriving DecidableEq

/-- The state and outputs after processing one work candidate. -/
structure ItemOut where
  lockfiles : LockfileStore
  posted : List PostedDigest
  outcome : ItemOutcome

/-- The per-item environment: the fresh lock and done fetches of the re-check,
the fetched logic script (none models a fetch failure, and an empty script is
falsy), the executor result, and the json.loads behaviour on stdout. -/
structure WorkItemEnv where
  freshLocks : List Entry
  freshDone : List Entry
  script : Option String
  execResult : ExecResult
  jsonParse : String → ParsedOut

/-- The fresh locked-id set of the re-check: trimmed content strings of the
freshly fetched lock digests. -/
def fresh_lock_ids (l : List Entry) : List String :=
  l.map (fun ld => py_strip (ld.content.getD ""))

/-- The fresh done re-check: whether any freshly fetched done digest carries
the processed tag of this digest. -/
def fresh_done_hit (freshDone : List Entry) (digest_id : String) : Bool :=
  freshDone.any
    (fun dd => ((tags_as_list dd.tags).map tag_name).any
      (fun tn => tn == "processed-" ++ digest_id))

/-- Whether get_executor_for_language succeeds for this language. -/
def supported_language (language : String) : Bool :=
  let l := language.toLower
  l == "bash" || l == "sh" || l == "python" || l == "python3" || l == "py" ||
  l == "powershell" || l == "pwsh" || l == "ps1"

/-- One iteration of the work loop over a candidate (the claim, re-check,
lock publication, script fetch, execution and result publication).  The
lockfile claim is the atomic exclusive create: it fails exactly when the
lockfile already exists, and on success records the created timestamp.  Every
later branch keeps the lockfile; the remote lock digest is posted before the
logic-id check, exactly as in the source. -/
def process_work_item (cfg : ParsedQueueConf) (job_name nowIso : String)
    (st : LockfileStore) (d : Entry) (env : WorkItemEnv) : ItemOut :=
  let digest_id := pyStr d.id
  if (st.lookup digest_id).isSome then
    ⟨st, [], .lockfileExists⟩
  else
    let st := (digest_id, nowIso) :: st
    if digest_id ∈ fresh_lock_ids env.freshLocks then
      ⟨st, [], .racedRemoteLock⟩
    else if fresh_done_hit env.freshDone digest_id then
      ⟨st, [], .racedRemoteDone⟩
    else
      let lock_tags := [cfg.lock_tag, job_name] ++
        (if cfg.device_tag ≠ "" then [cfg.device_tag] else [])
      let posted := [PostedDigest.mk digest_id (String.intercalate "," lock_tags)]
      if cfg.logic_digest_id.getD "" = "" then
        ⟨st, posted, .missingLogicId⟩
      else if (env.script.getD "") = "" then
        ⟨st, posted, .scriptFetchFailed⟩
      else if supported_language cfg.language then
        let h := handle_result cfg.done_tags cfg.fail_tags job_name digest_id
          env.execResult (env.jsonParse env.execResult.stdout)
        ⟨st, posted ++ [PostedDigest.mk h.body (String.intercalate "," h.res_tags)],
         .ran h.successful⟩
      else
        ⟨st, posted, .badLanguage⟩

/-- The accumulated state of one pass of the worker loop. -/
structure PassOut where
  lockfiles : LockfileStore
  posted : List PostedDigest

/-- The fold step applied to each work item in order, threading the lockfile
store and accumulating the posted digests. -/
def pass_step (cfg : ParsedQueueConf) (job_name nowIso : String)
    (envf : String → WorkItemEnv) (acc : PassOut) (d : Entry) : PassOut :=
  let r := process_work_item cfg job_name nowIso acc.lockfiles d (envf (pyStr d.id))
  ⟨r.lockfiles, acc.posted ++ r.posted⟩

/-- One pass of the worker loop body: build the done-id set, filter the queue
digests through the candidate decision, then process each surviving work
item in order.  The queue, lock and done fetch results are inputs; envf
supplies the per-item fetches and execution results keyed by digest id. -/
def worker_pass (cfg : ParsedQueueConf) (job_name nowIso : String)
    (st0 : LockfileStore) (digests doneList lockList : List Entry)
    (envf : String → WorkItemEnv) (parse : String → Option Int) (nowEpoch : Int) :
    PassOut :=
  let done_ids := done_ids_of doneList
  let work := digests.filter
    (fun d =>
      candidate_decision done_ids lockList st0 parse nowEpoch cfg.timeout (pyStr d.id)
        = Decision.work)
  work.foldl (pass_step cfg job_name nowIso envf) ⟨st0, []⟩

/-! Environment lemmas. -/

theorem envGet_envSet_same (env : List (String × String)) (k v : String) :
    envGet (envSet env k v) k = some v := by
  induction env with
  | nil => simp [envSet, envGet]
  | cons p rest ih =>
    by_cases h : p.1 = k
    · rw [envSet, if_pos h]
      exact ih
    · rw [envSet, if_neg h, envGet, if_neg h]
      exact ih

theorem envGet_envSet_other (env : List (String × String)) (k v k2 : String)
    (h : k2 ≠ k) : envGet (envSet env k v) k2 = envGet env k2 := by
  have hk : ¬ (k = k2) := fun hh => h hh.symm
  induction env with
  | nil => simp [envSet, envGet, hk]
  | cons p rest ih =>
    by_cases hp : p.1 = k
    · have hp2 : ¬ p.1 = k2 := by
        rw [hp]; exact hk
      rw [envSet, if_pos hp, envGet, if_neg hp2]
      exact ih
    · by_cases h2 : p.1 = k2
      · rw [envSet, if_neg hp, envGet, if_pos h2, envGet, if_pos h2]
      · rw [envSet, if_neg hp, envGet, if_neg h2, envGet, if_neg h2]
        exact ih

/-- C3: evaluation of the result-interpretation block at the failing input of
the claim: the script exits 0 and prints the non-JSON text, json.loads fails
so the parsed object is empty, the run is counted a failure, and the posted
tags are the fail tags plus processed-42 plus the job name — but the body is
the empty string (base64.b64decode of the empty content string succeeds with
empty bytes), not the raw stdout that the claim requires: the raw-stdout
fallback sits in the decode except branch, which an empty content string
never reaches. -/
theorem C3_nonjson_stdout_result :
    handle_result ["q-done"] ["q-fail"] "job" "42"
        ⟨"not json", "", 0⟩ ParsedOut.notJson
      = ⟨false, ["q-fail", "processed-42", "job"], ""⟩ := by
  decide

/-- C7 counterexample: the bash executor writes the script to its temporary
file before entering the try block, so a failed write raises into the caller
instead of returning retcode -1, refuting the claim that run_script never
raises for every executor and every input. -/
theorem C7_bash_write_failure_raises :
    bash_run_script (some "No space left on device")
        (SubprocOutcome.completed "" "" 0) none
      = .error "No space left on device" := rfl

/-- C7 amended: the python executor never raises and maps every failure
(write failure, timeout, missing interpreter, other errors) to retcode -1
with the error text in stderr; the bash and powershell executors map every
failure during execution to retcode -1 with the error text (the timeout text
for bash being the exception text and for powershell a fixed message), but a
failure writing the script temporary file propagates to the caller for both,
and so does a bash temporary-file removal failure. -/
theorem C7_executor_failures_amended (timeout : Int) (python_command w m : String)
    (sub : SubprocOutcome) :
    (python_run_script (some w) sub timeout python_command
        = .ok ⟨"", "Failed to write script: " ++ w, -1⟩)
    ∧ (python_run_script none (.timedOut m) timeout python_command
        = .ok ⟨"", "Script timed out after " ++ toString timeout ++ " seconds", -1⟩)
    ∧ (python_run_script none (.fileNotFound m) timeout python_command
        = .ok ⟨"", "Python executable not found: " ++ python_command, -1⟩)
    ∧ (python_run_script none (.otherError m) timeout python_command
        = .ok ⟨"", m, -1⟩)
    ∧ (∀ (w2 : Option String) (sub2 : SubprocOutcome),
        ∃ r, python_run_script w2 sub2 timeout python_command = .ok r)
    ∧ (bash_run_script none (.timedOut m) none = .ok ⟨"", m, -1⟩)
    ∧ (bash_run_script none (.fileNotFound m) none = .ok ⟨"", m, -1⟩)
    ∧ (bash_run_script none (.otherError m) none = .ok ⟨"", m, -1⟩)
    ∧ (bash_run_script (some w) sub none = .error w)
    ∧ (∀ rm : String, bash_run_script none sub (some rm) = .error rm)
    ∧ (powershell_run_script none (.timedOut m) timeout
        = .ok ⟨"", "Script timed out after " ++ toString timeout ++ " seconds", -1⟩)
    ∧ (powershell_run_script none (.fileNotFound m) timeout
        = .ok ⟨"", "PowerShell not found. Please install PowerShell Core (pwsh) from https://github.com/PowerShell/PowerShell", -1⟩)
    ∧ (powershell_run_script none (.otherError m) timeout = .ok ⟨"", m, -1⟩)
    ∧ (powershell_run_script (some w) sub timeout = .error w) := by
  refine ⟨rfl, rfl, rfl, rfl, ?_, rfl, rfl, rfl, rfl, ?_, rfl, rfl, rfl, rfl⟩
  · intro w2 sub2
    cases w2 <;> cases sub2 <;> exact ⟨_, rfl⟩
  · intro rm
    cases sub <;> rfl

/-- C8 counterexample: the bash executor passes no env argument to
subprocess.run, so the child environment is exactly the parent environment
and contains no JOB_NAME entry, refuting the claim that every executor
extends the environment with the four JOB_ variables. -/
theorem C8_bash_env_missing_job_name :
    bash_job_env [("PATH", "/usr/bin")] = [("PATH", "/usr/bin")]
    ∧ envGet (bash_job_env [("PATH", "/usr/bin")]) "JOB_NAME" = none :=
  ⟨rfl, rfl⟩

/-- C8 amended: the python and powershell executors run the script in a
subprocess whose environment is the parent environment extended with
JOB_NAME, JOB_TYPE and, when a job digest is present, JOB_DIGEST_ID and
JOB_DIGEST_TAGS, the latter the comma-separated normalized tag names; keys
other than these four are preserved.  The bash executor passes the parent
environment unchanged. -/
theorem C8_executor_env_amended (parent : List (String × String)) (job_name : String)
    (job_conf_type : Option String) (jd : WorkerDigest) :
    (envGet (python_job_env parent job_name job_conf_type (some jd)) "JOB_NAME"
        = some job_name)
    ∧ (envGet (python_job_env parent job_name job_conf_type (some jd)) "JOB_TYPE"
        = some (job_conf_type.getD ""))
    ∧ (envGet (python_job_env parent job_name job_conf_type (some jd)) "JOB_DIGEST_ID"
        = some (match jd.id with | some v => pyStr v | none => ""))
    ∧ (envGet (python_job_env parent job_name job_conf_type (some jd)) "JOB_DIGEST_TAGS"
        = some (job_digest_tags_value jd.tags))
    ∧ (∀ k, k ≠ "JOB_NAME" → k ≠ "JOB_TYPE" → k ≠ "JOB_DIGEST_ID" →
        k ≠ "JOB_DIGEST_TAGS" →
        envGet (python_job_env parent job_name job_conf_type (some jd)) k
          = envGet parent k)
    ∧ powershell_job_env parent job_name job_conf_type (some jd)
        = python_job_env parent job_name job_conf_type (some jd)
    ∧ bash_job_env parent = parent := by
  have hNT : ("JOB_NAME" : String) ≠ "JOB_TYPE" := by decide
  have hIT : ("JOB_DIGEST_ID" : String) ≠ "JOB_TYPE" := by decide
  have hIN : ("JOB_DIGEST_ID" : String) ≠ "JOB_NAME" := by decide
  have hIG : ("JOB_DIGEST_ID" : String) ≠ "JOB_DIGEST_TAGS" := by decide
  have hGT : ("JOB_DIGEST_TAGS" : String) ≠ "JOB_TYPE" := by decide
  have hGN : ("JOB_DIGEST_TAGS" : String) ≠ "JOB_NAME" := by decide
  refine ⟨?_, ?_, ?_, ?_, ?_, rfl, rfl⟩
  · show envGet (envSet (envSet (envSet (envSet parent "JOB_DIGEST_ID"
      (match jd.id with | some v => pyStr v | none => ""))
      "JOB_DIGEST_TAGS" (job_digest_tags_value jd.tags))
      "JOB_NAME" job_name) "JOB_TYPE" (job_conf_type.getD "")) "JOB_NAME"
      = some job_name
    rw [envGet_envSet_other _ _ _ _ hNT, envGet_envSet_same]
  · show envGet (envSet (envSet (envSet (envSet parent "JOB_DIGEST_ID"
      (match jd.id with | some v => pyStr v | none => ""))
      "JOB_DIGEST_TAGS" (job_digest_tags_value jd.tags))
      "JOB_NAME" job_name) "JOB_TYPE" (job_conf_type.getD "")) "JOB_TYPE"
      = some (job_conf_type.getD "")
    rw [envGet_envSet_same]
  · show envGet (envSet (envSet (envSet (envSet parent "JOB_DIGEST_ID"
      (match jd.id with | some v => pyStr v | none => ""))
      "JOB_DIGEST_TAGS" (job_digest_tags_value jd.tags))
      "JOB_NAME" job_name) "JOB_TYPE" (job_conf_type.getD "")) "JOB_DIGEST_ID"
      = some (match jd.id with | some v => pyStr v | none => "")
    rw [envGet_envSet_other _ _ _ _ hIT, envGet_envSet_other _ _ _ _ hIN,
      envGet_envSet_other _ _ _ _ hIG, envGet_envSet_same]
  · show envGet (envSet (envSet (envSet (envSet parent "JOB_DIGEST_ID"
      (match jd.id with | some v => pyStr v | none => ""))
      "JOB_DIGEST_TAGS" (job_digest_tags_value jd.tags))
      "JOB_NAME" job_name) "JOB_TYPE" (job_conf_type.getD "")) "JOB_DIGEST_TAGS"
      = some (job_digest_tags_value jd.tags)
    rw [envGet_envSet_other _ _ _ _ hGT, envGet_envSet_other _ _ _ _ hGN,
      envGet_envSet_same]
  · intro k h1 h2 h3 h4
    show envGet (envSet (envSet (envSet (envSet parent "JOB_DIGEST_ID"
      (match jd.id with | some v => pyStr v | none => ""))
      "JOB_DIGEST_TAGS" (job_digest_tags_value jd.tags))
      "JOB_NAME" job_name) "JOB_TYPE" (job_conf_type.getD "")) k
      = envGet parent k
    rw [envGet_envSet_other _ _ _ _ h2, envGet_envSet_other _ _ _ _ h1,
      envGet_envSet_other _ _ _ _ h4, envGet_envSet_other _ _ _ _ h3]

/-- C8 amended witness at a concrete instantiation: a PATH binding of the
parent survives, and the tag list mixing a plain string tag and a dictionary
tag normalizes to the comma-joined names. -/
theorem C8_executor_env_amended_witness :
    envGet (python_job_env [("PATH", "/bin")] "job" (some "queue")
        (some ⟨some (.pyint 7), .flist [.tstr "a", .tdict (some "b")]⟩)) "PATH"
      = some "/bin"
    ∧ envGet (python_job_env [("PATH", "/bin")] "job" (some "queue")
        (some ⟨some (.pyint 7), .flist [.tstr "a", .tdict (some "b")]⟩))
        "JOB_DIGEST_TAGS"
      = some "a,b" := by
  constructor
  · exact (C8_executor_env_amended [("PATH", "/bin")] "job" (some "queue")
      ⟨some (.pyint 7), .flist [.tstr "a", .tdict (some "b")]⟩).2.2.2.2.1 "PATH"
      (by decide) (by decide) (by decide) (by decide)
  · have h := (C8_executor_env_amended [("PATH", "/bin")] "job" (some "queue")
      ⟨some (.pyint 7), .flist [.tstr "a", .tdict (some "b")]⟩).2.2.2.1
    rw [h]
    rfl

/-! Lockfile persistence and the exclusive-create claim. -/

theorem process_work_item_mono (cfg : ParsedQueueConf) (job_name nowIso : String)
    (st : LockfileStore) (d : Entry) (env : WorkItemEnv) (x : String × String)
    (hx : x ∈ st) :
    x ∈ (process_work_item cfg job_name nowIso st d env).lockfiles := by
  simp only [process_work_item]
  repeat' split
  all_goals simp [List.mem_cons, hx]

theorem pass_fold_mono (cfg : ParsedQueueConf) (job_name nowIso : String)
    (envf : String → WorkItemEnv) (l : List Entry) (acc : PassOut)
    (x : String × String) (hx : x ∈ acc.lockfiles) :
    x ∈ (l.foldl (pass_step cfg job_name nowIso envf) acc).lockfiles := by
  induction l generalizing acc with
  | nil => exact hx
  | cons d rest ih =>
    exact ih _ (process_work_item_mono cfg job_name nowIso acc.lockfiles d
      (envf (pyStr d.id)) x hx)

/-- C1: once a worker has created the local lockfile of a (job, digest id)
pair, no code path of one pass of the queue worker loop removes it: the
lockfile store after the pass still contains the record, whatever the
candidate filter decides and whatever happens per item — successful or
failed execution, a publish failure (post results are ignored by the code,
so no branch depends on them), a script-fetch failure, or the race-abandon
branches after the fresh lock and done re-checks.  The store argument st0 is
the state at any point from which the pass continues, so the record persists
across every subsequent pass as well. -/
theorem C1_local_lockfile_persists (cfg : ParsedQueueConf) (job_name nowIso : String)
    (st0 : LockfileStore) (digests doneList lockList : List Entry)
    (envf : String → WorkItemEnv) (parse : String → Option Int) (nowEpoch : Int)
    (digest_id created : String) (h : (digest_id, created) ∈ st0) :
    (digest_id, created) ∈ (worker_pass cfg job_name nowIso st0 digests doneList
        lockList envf parse nowEpoch).lockfiles := by
  simp only [worker_pass]
  exact pass_fold_mono cfg job_name nowIso envf _ _ _ h

/-- C1 witness: a lockfile record present before a pass that processes the
very same digest id is still present afterwards. -/
theorem C1_local_lockfile_persists_witness :
    ("42", "T0") ∈ (worker_pass (parse_queue_conf "job" "dev" {}) "job" "T1"
        [("42", "T0")] [{ id := .pystr "42" }] [] []
        (fun _ => ⟨[], [], none, ⟨"", "", 0⟩, fun _ => .notJson⟩)
        (fun _ => none) 0).lockfiles :=
  C1_local_lockfile_persists (parse_queue_conf "job" "dev" {}) "job" "T1"
    [("42", "T0")] [{ id := .pystr "42" }] [] []
    (fun _ => ⟨[], [], none, ⟨"", "", 0⟩, fun _ => .notJson⟩)
    (fun _ => none) 0 "42" "T0" (by simp)

/-- C2: the local claim is the exclusive create.  When the lockfile already
exists the claim fails: the step returns with the store unchanged, posts
nothing (no remote lock digest) and does not execute (its outcome is the
lockfileExists skip).  When the lockfile does not exist the claim succeeds:
the store gains the record carrying the created timestamp, and the step does
not take the skip outcome. -/
theorem C2_claim_exclusive_create (cfg : ParsedQueueConf) (job_name nowIso : String)
    (st : LockfileStore) (d : Entry) (env : WorkItemEnv) :
    (if (st.lookup (pyStr d.id)).isSome then
      process_work_item cfg job_name nowIso st d env
        = ⟨st, [], ItemOutcome.lockfileExists⟩
     else
      (process_work_item cfg job_name nowIso st d env).lockfiles
          = (pyStr d.id, nowIso) :: st
        ∧ (process_work_item cfg job_name nowIso st d env).outcome
            ≠ ItemOutcome.lockfileExists) := by
  by_cases h : (st.lookup (pyStr d.id)).isSome = true
  · rw [if_pos h]
    simp only [process_work_item, h]
    rfl
  · rw [if_neg h]
    have hne : (st.lookup (pyStr d.id)).isSome = false := by
      cases hh : (st.lookup (pyStr d.id)).isSome
      · rfl
      · exact absurd hh h
    constructor
    · simp only [process_work_item, hne, Bool.false_eq_true, if_false]
      repeat' split
      all_goals rfl
    · simp only [process_work_item, hne, Bool.false_eq_true, if_false]
      repeat' split
      all_goals simp

/-- C2 witness: with no lockfile present the claim on digest 42 succeeds and
records the creation timestamp, and the step is not the already-locked
skip. -/
theorem C2_claim_exclusive_create_witness :
    (process_work_item (parse_queue_conf "job" "dev" {}) "job" "T" []
        { id := .pystr "42" } ⟨[], [], none, ⟨"", "", 0⟩, fun _ => .notJson⟩).lockfiles
      = [("42", "T")]
    ∧ (process_work_item (parse_queue_conf "job" "dev" {}) "job" "T" []
        { id := .pystr "42" } ⟨[], [], none, ⟨"", "", 0⟩, fun _ => .notJson⟩).outcome
      ≠ ItemOutcome.lockfileExists := by
  have h := C2_claim_exclusive_create (parse_queue_conf "job" "dev" {}) "job" "T" []
    { id := .pystr "42" } ⟨[], [], none, ⟨"", "", 0⟩, fun _ => .notJson⟩
  simpa [pyStr, List.lookup] using h

/-- C9: the observable behaviour of one pass of the queue worker loop — the
candidates selected, the locks and results posted, and the lockfiles left —
is the same for any two configurations differing only in the retry_failed
value (in either the queue_tag dictionary or the job dictionary): the flag
is parsed into the configuration but never consulted by the loop. -/
theorem C9_retry_failed_irrelevant (job_name device : String) (jc : JobConfRaw)
    (q1 q2 j1 j2 : Option String) (nowIso : String) (st0 : LockfileStore)
    (digests doneList lockList : List Entry) (envf : String → WorkItemEnv)
    (parse : String → Option Int) (nowEpoch : Int) :
    worker_pass (parse_queue_conf job_name device
        { jc with retry_failed := j1,
                  queue_tag_obj := { jc.queue_tag_obj with retry_failed := q1 } })
        job_name nowIso st0 digests doneList lockList envf parse nowEpoch
    = worker_pass (parse_queue_conf job_name device
        { jc with retry_failed := j2,
                  queue_tag_obj := { jc.queue_tag_obj with retry_failed := q2 } })
        job_name nowIso st0 digests doneList lockList envf parse nowEpoch := rfl

/-- C10: fetch_digest_by_id compares the str() forms of the ids, so with the
same tag result set a call with an integer digest id and a call with its
decimal-string form return the same content (or raise the same lookup
error) on a cache miss — here with the empty cache, so both calls miss. -/
theorem C10_id_string_interchangeable (n : Int) (digests : List Entry)
    (nowLocal : Int) (use_cache : Bool) (cache_minutes : Int) (search_tags : String) :
    (fetch_digest_by_id [] nowLocal (.pyint n) digests use_cache cache_minutes
        search_tags).result
    = (fetch_digest_by_id [] nowLocal (.pystr (toString n)) digests use_cache
        cache_minutes search_tags).result := by
  simp only [fetch_digest_by_id, cache_hit, List.lookup, ite_self]
  have hp : (fun e : Entry => pyStr e.id == pyStr (PyVal.pystr (toString n)))
      = (fun e : Entry => pyStr e.id == pyStr (PyVal.pyint n)) := rfl
  have hs : pyStr (PyVal.pystr (toString n)) = pyStr (PyVal.pyint n) := rfl
  rw [hp, hs]
  cases h : digests.find? (fun e => pyStr e.id == pyStr (PyVal.pyint n)) <;>
    simp [h]

/-! The fetch-by-id cache discipline. -/

theorem cache_hit_some_iff (cache : DigestCache) (nowLocal : Int) (digest_id : PyVal)
    (use_cache : Bool) (cache_minutes : Int) (c : String) :
    cache_hit cache nowLocal digest_id use_cache cache_minutes = some c ↔
      use_cache = true ∧ ¬ cache_minutes = 0 ∧
      ∃ ts, cache.lookup digest_id = some (c, ts) ∧
        (cache_minutes = -1 ∨ (nowLocal - ts) % 86400 < cache_minutes * 60) := by
  unfold cache_hit
  by_cases hu : use_cache = true
  · by_cases hcm : cache_minutes = 0
    · simp [hu, hcm]
    · cases hl : cache.lookup digest_id with
      | none => simp [hu, hcm, hl]
      | some p =>
        obtain ⟨c0, ts0⟩ := p
        by_cases hf : cache_minutes = -1 ∨ (nowLocal - ts0) % 86400 < cache_minutes * 60
        · have hcond : (cache_minutes == -1
              || decide ((nowLocal - ts0) % 86400 < cache_minutes * 60)) = true := by
            rcases hf with h | h <;> simp [h]
          simp [hu, hcm, hl, hcond]
          constructor
          · intro h
            exact ⟨ts0, ⟨h, rfl⟩, hf⟩
          · rintro ⟨ts, ⟨h1, _⟩, _⟩
            exact h1
        · have hcond : (cache_minutes == -1
              || decide ((nowLocal - ts0) % 86400 < cache_minutes * 60)) = false := by
            push_neg at hf
            simp [hf.1, not_lt.mpr hf.2]
          simp [hu, hcm, hl, hcond]
          intro _
          push_neg at hf
          exact ⟨hf.1, hf.2⟩
  · simp [hu]

theorem fetch_by_id_hit (cache : DigestCache) (nowLocal : Int) (digest_id : PyVal)
    (digests : List Entry) (use_cache : Bool) (cache_minutes : Int)
    (search_tags : String) (c : String)
    (h : cache_hit cache nowLocal digest_id use_cache cache_minutes = some c) :
    fetch_digest_by_id cache nowLocal digest_id digests use_cache cache_minutes
      search_tags = ⟨.ok c, cache, false⟩ := by
  simp only [fetch_digest_by_id, h]

theorem fetch_by_id_miss (cache : DigestCache) (nowLocal : Int) (digest_id : PyVal)
    (digests : List Entry) (use_cache : Bool) (cache_minutes : Int)
    (search_tags : String)
    (h : cache_hit cache nowLocal digest_id use_cache cache_minutes = none) :
    fetch_digest_by_id cache nowLocal digest_id digests use_cache cache_minutes
        search_tags
      = match digests.find? (fun e => pyStr e.id == pyStr digest_id) with
        | some e =>
          ⟨.ok (e.content.getD ""),
           if cache_minutes != 0 then
             cache_set cache digest_id (e.content.getD "") nowLocal
           else cache, true⟩
        | none =>
          ⟨.error ("Digest " ++ pyStr digest_id ++ " not found in tags: "
             ++ search_tags), cache, true⟩ := by
  simp only [fetch_digest_by_id, h]

/-- C6 counterexample: a cached entry stored at local time 0 and read at
local time 86460 (one day and one minute later, a true age of 1441 minutes)
is still returned from the cache with cache_minutes 5 and no network fetch
happens, because the source computes the age from the seconds component of
the timedelta, which wraps every 24 hours: 86460 mod 86400 is 60 seconds,
one minute.  The claim as stated requires this call to fetch over the
network. -/
theorem C6_cache_age_counterexample :
    (fetch_digest_by_id [(PyVal.pystr "cfg", "stale content", 0)] 86460
        (.pystr "cfg") [] true 5 "agent-config").network = false
    ∧ (fetch_digest_by_id [(PyVal.pystr "cfg", "stale content", 0)] 86460
        (.pystr "cfg") [] true 5 "agent-config").result = .ok "stale content" :=
  ⟨rfl, rfl⟩

/-- C6 amended: fetch_digest_by_id returns the cached content exactly when
caching is enabled (use_cache on and cacheMinutes not 0), the id is cached,
and either cacheMinutes is -1 (cache forever) or the seconds component of
the elapsed time — the elapsed seconds modulo 24 hours — is below
cacheMinutes minutes; with cacheMinutes 0 every call consults the network
and never populates the cache; on a miss the tag result set is searched for
the matching str() id, the cache is populated iff cacheMinutes is nonzero,
and the lookup error is raised when the id is absent. -/
theorem C6_fetch_by_id_cache_amended (cache : DigestCache) (nowLocal : Int)
    (digest_id : PyVal) (digests : List Entry) (use_cache : Bool)
    (cache_minutes : Int) (search_tags : String) :
    ((fetch_digest_by_id cache nowLocal digest_id digests use_cache cache_minutes
        search_tags).network = false ↔
      use_cache = true ∧ ¬ cache_minutes = 0 ∧
      ∃ c ts, cache.lookup digest_id = some (c, ts) ∧
        (cache_minutes = -1 ∨ (nowLocal - ts) % 86400 < cache_minutes * 60))
    ∧ (∀ c ts, use_cache = true → ¬ cache_minutes = 0 →
        cache.lookup digest_id = some (c, ts) →
        (cache_minutes = -1 ∨ (nowLocal - ts) % 86400 < cache_minutes * 60) →
        fetch_digest_by_id cache nowLocal digest_id digests use_cache cache_minutes
          search_tags = ⟨.ok c, cache, false⟩)
    ∧ (cache_minutes = 0 →
        (fetch_digest_by_id cache nowLocal digest_id digests use_cache cache_minutes
          search_tags).network = true
        ∧ (fetch_digest_by_id cache nowLocal digest_id digests use_cache cache_minutes
          search_tags).cache = cache)
    ∧ (∀ e, digests.find? (fun x => pyStr x.id == pyStr digest_id) = some e →
        (fetch_digest_by_id cache nowLocal digest_id digests use_cache cache_minutes
          search_tags).network = true →
        (fetch_digest_by_id cache nowLocal digest_id digests use_cache cache_minutes
          search_tags).result = .ok (e.content.getD "")
        ∧ (fetch_digest_by_id cache nowLocal digest_id digests use_cache cache_minutes
          search_tags).cache
            = (if cache_minutes = 0 then cache
               else cache_set cache digest_id (e.content.getD "") nowLocal))
    ∧ (digests.find? (fun x => pyStr x.id == pyStr digest_id) = none →
        (fetch_digest_by_id cache nowLocal digest_id digests use_cache cache_minutes
          search_tags).network = true →
        (fetch_digest_by_id cache nowLocal digest_id digests use_cache cache_minutes
          search_tags).result
          = .error ("Digest " ++ pyStr digest_id ++ " not found in tags: "
              ++ search_tags)) := by
  by_cases hhit : ∃ c, cache_hit cache nowLocal digest_id use_cache cache_minutes
      = some c
  · obtain ⟨c, hc⟩ := hhit
    have hfetch := fetch_by_id_hit cache nowLocal digest_id digests use_cache
      cache_minutes search_tags c hc
    have hconds := (cache_hit_some_iff cache nowLocal digest_id use_cache
      cache_minutes c).mp hc
    have hu := hconds.1
    have hcm := hconds.2.1
    refine ⟨?_, ?_, ?_, ?_, ?_⟩
    · rw [hfetch]
      simp only [true_iff, eq_self_iff_true]
      obtain ⟨ts1, h1, h2⟩ := hconds.2.2
      exact ⟨hu, hcm, c, ts1, h1, h2⟩
    · intro c2 ts2 _ _ hlook _
      obtain ⟨ts1, h1, _⟩ := hconds.2.2
      rw [hlook] at h1
      have hcc : c = c2 := by
        injection h1 with hp
        exact (congrArg Prod.fst hp).symm
      rw [hfetch, hcc]
    · intro hcm0
      exact absurd hcm0 hcm
    · intro e _ hnet
      rw [hfetch] at hnet
      exact absurd hnet (by simp)
    · intro _ hnet
      rw [hfetch] at hnet
      exact absurd hnet (by simp)
  · have hc : cache_hit cache nowLocal digest_id use_cache cache_minutes = none := by
      cases hh : cache_hit cache nowLocal digest_id use_cache cache_minutes with
      | none => rfl
      | some c => exact absurd ⟨c, hh⟩ hhit
    have hfetch := fetch_by_id_miss cache nowLocal digest_id digests use_cache
      cache_minutes search_tags hc
    refine ⟨?_, ?_, ?_, ?_, ?_⟩
    · rw [hfetch]
      cases hf : digests.find? (fun x => pyStr x.id == pyStr digest_id) <;>
        simp only [hf]
      · simp only [Bool.true_eq_false, false_iff]
        rintro ⟨hu, hcm, c, ts, hlook, hfr⟩
        exact hhit ⟨c, (cache_hit_some_iff cache nowLocal digest_id use_cache
          cache_minutes c).mpr ⟨hu, hcm, ts, hlook, hfr⟩⟩
      · simp only [Bool.true_eq_false, false_iff]
        rintro ⟨hu, hcm, c, ts, hlook, hfr⟩
        exact hhit ⟨c, (cache_hit_some_iff cache nowLocal digest_id use_cache
          cache_minutes c).mpr ⟨hu, hcm, ts, hlook, hfr⟩⟩
    · intro c2 ts2 hu hcm hlook hfr
      exact absurd ⟨c2, (cache_hit_some_iff cache nowLocal digest_id use_cache
        cache_minutes c2).mpr ⟨hu, hcm, ts2, hlook, hfr⟩⟩ hhit
    · intro hcm0
      rw [hfetch]
      cases hf : digests.find? (fun x => pyStr x.id == pyStr digest_id) <;>
        simp [hf, hcm0]
    · intro e hf hnet
      rw [hfetch]
      by_cases hcm0 : cache_minutes = 0 <;> simp [hf, hcm0]
    · intro hf hnet
      rw [hfetch]
      simp [hf]

/-- C6 amended witness: a fresh cache entry is returned without a network
fetch, through the amended theorem at a concrete instantiation. -/
theorem C6_fetch_by_id_cache_amended_witness :
    fetch_digest_by_id [(PyVal.pyint 7, "cached content", 0)] 120 (.pyint 7)
        [] true 5 "agent-config"
      = ⟨.ok "cached content", [(PyVal.pyint 7, "cached content", 0)], false⟩ :=
  (C6_fetch_by_id_cache_amended [(PyVal.pyint 7, "cached content", 0)] 120
      (.pyint 7) [] true 5 "agent-config").2.1 "cached content" 0
    rfl (by decide) rfl (Or.inr (by decide))

/-! The candidate filter and the lock-age sentinel. -/

/-- C4: a candidate is work exactly when it is not in the done-id set, its
local lockfile does not exist, and any remote lock digest mapped to it has
age at least the job timeout; a lock digest with no usable creation time
(missing, unparseable, or incomparable) gets the 1e9-second sentinel age,
so whenever the timeout is at most 1e9 seconds such a lock is treated as
stale and the candidate proceeds to the claim.  The filter has no operation
that deletes a remote lock digest: a stale lock merely falls through to the
lockfile check. -/
theorem C4_candidate_filter (done_ids : List String) (lockList : List Entry)
    (st : LockfileStore) (parse : String → Option Int) (nowEpoch timeout : Int)
    (id : String) :
    (candidate_decision done_ids lockList st parse nowEpoch timeout id
        = Decision.work ↔
      (id ∉ done_ids ∧ (st.lookup id).isSome = false ∧
       ∀ lockD, locked_map_get lockList id = some lockD →
         timeout ≤ lock_digest_age_sec parse nowEpoch lockD))
    ∧ (∀ lockD : Entry,
        (first_truthy [lockD.created, lockD.created_at, lockD.timestamp] = none ∨
         ∃ s, first_truthy [lockD.created, lockD.created_at, lockD.timestamp]
             = some s ∧ parse s = none) →
        lock_digest_age_sec parse nowEpoch lockD = 1000000000)
    ∧ (timeout ≤ 1000000000 →
        ∀ lockD, locked_map_get lockList id = some lockD →
        first_truthy [lockD.created, lockD.created_at, lockD.timestamp] = none →
        id ∉ done_ids → (st.lookup id).isSome = false →
        candidate_decision done_ids lockList st parse nowEpoch timeout id
          = Decision.work) := by
  have hage : ∀ lockD : Entry,
      (first_truthy [lockD.created, lockD.created_at, lockD.timestamp] = none ∨
       ∃ s, first_truthy [lockD.created, lockD.created_at, lockD.timestamp]
           = some s ∧ parse s = none) →
      lock_digest_age_sec parse nowEpoch lockD = 1000000000 := by
    intro lockD hcase
    unfold lock_digest_age_sec
    rcases hcase with hnone | ⟨s, hs, hp⟩
    · rw [hnone]
    · rw [hs]
      simp [hp]
  have hmain : candidate_decision done_ids lockList st parse nowEpoch timeout id
        = Decision.work ↔
      (id ∉ done_ids ∧ (st.lookup id).isSome = false ∧
       ∀ lockD, locked_map_get lockList id = some lockD →
         timeout ≤ lock_digest_age_sec parse nowEpoch lockD) := by
    unfold candidate_decision
    by_cases hdone : id ∈ done_ids
    · simp [hdone]
    · cases hmap : locked_map_get lockList id with
      | none =>
        by_cases hlk : (st.lookup id).isSome = true
        · simp [hdone, hlk]
        · have hlk2 : (st.lookup id).isSome = false := by
            cases hh : (st.lookup id).isSome
            · rfl
            · exact absurd hh hlk
          simp [hdone, hlk2]
      | some lockD =>
        by_cases hlt : lock_digest_age_sec parse nowEpoch lockD < timeout
        · simp only [hdone, if_neg, not_false_iff, hlt, if_pos]
          constructor
          · intro hw
            exact absurd hw (by simp)
          · rintro ⟨_, _, hall⟩
            exact absurd (hall lockD rfl) (not_le.mpr hlt)
        · by_cases hlk : (st.lookup id).isSome = true
          · simp [hdone, hlt, hlk]
          · have hlk2 : (st.lookup id).isSome = false := by
              cases hh : (st.lookup id).isSome
              · rfl
              · exact absurd hh hlk
            simp only [hdone, not_false_iff, if_neg, hlt, if_false, hlk2,
              Bool.false_eq_true, true_and, true_iff]
            intro lockD2 hmap2
            injection hmap2 with he
            rw [← he]
            exact not_lt.mp hlt
  refine ⟨hmain, hage, ?_⟩
  · intro htl lockD hmap hts hdone hlk
    rw [hmain]
    refine ⟨hdone, hlk, ?_⟩
    intro lockD2 hmap2
    rw [hmap] at hmap2
    injection hmap2 with he
    rw [← he, hage lockD (Or.inl hts)]
    exact htl

/-- C4 witness: a candidate whose only obstacle is a remote lock digest with
no creation timestamp is treated as claimable work under the default 900
second timeout. -/
theorem C4_candidate_filter_witness :
    candidate_decision [] [{ content := some "42" }] [] (fun _ => none) 0 900 "42"
      = Decision.work :=
  (C4_candidate_filter [] [{ content := some "42" }] [] (fun _ => none) 0 900
      "42").2.2 (by decide) { content := some "42" } (by decide) rfl (by simp) rfl

/-! The lookback filter. -/

theorem lookback_include_iff (parse : String → Option PyDT) (cutoff : PyDT)
    (e : Entry) :
    lookback_include parse cutoff e = true ↔
      (entry_timestamp e = none
       ∨ ∃ s, entry_timestamp e = some s ∧
          (parse (fix_z s) = none
           ∨ ∃ dt, parse (fix_z s) = some dt ∧
              (dt_ge dt cutoff = none ∨ dt_ge dt cutoff = some true))) := by
  unfold lookback_include
  cases hts : entry_timestamp e with
  | none => simp
  | some s =>
    cases hp : parse (fix_z s) with
    | none => simp [hp]
    | some dt =>
      cases hg : dt_ge dt cutoff with
      | none => simp [hp, hg]
      | some b => cases b <;> simp [hp, hg]

/-- C5: fetch_digests_with_lookback returns exactly the entries of the tag
fetch whose position relative to the cutoff could be established as within
the window: an entry is in the output iff it is in the input and either its
timestamp chain is missing, or the timestamp fails to parse, or the parsed
timestamp cannot be compared with the naive cutoff (both failures are caught
and fail open), or the comparison puts it at or after the cutoff.
Consequently an entry whose timestamp parses to a comparable (naive) value
older than the window is excluded. -/
theorem C5_lookback_filter (parse : String → Option PyDT)
    (nowUtc lookback_seconds : Int) (digests : List Entry) (e : Entry) :
    (e ∈ fetch_digests_with_lookback parse nowUtc lookback_seconds digests ↔
      e ∈ digests ∧
       (entry_timestamp e = none
        ∨ ∃ s, entry_timestamp e = some s ∧
           (parse (fix_z s) = none
            ∨ ∃ dt, parse (fix_z s) = some dt ∧
               (dt_ge dt (.naive (nowUtc - lookback_seconds)) = none
                ∨ dt_ge dt (.naive (nowUtc - lookback_seconds)) = some true))))
    ∧ (∀ s t, entry_timestamp e = some s →
        parse (fix_z s) = some (.naive t) → t < nowUtc - lookback_seconds →
        e ∉ fetch_digests_with_lookback parse nowUtc lookback_seconds digests) := by
  constructor
  · rw [fetch_digests_with_lookback, List.mem_filter, lookback_include_iff]
  · intro s t hs hp hlt hmem
    rw [fetch_digests_with_lookback, List.mem_filter] at hmem
    have hinc := hmem.2
    unfold lookback_include at hinc
    rw [hs] at hinc
    simp only [hp] at hinc
    simp [dt_ge] at hinc
    omega

/-- C5 witness: an entry with a parseable naive timestamp older than the
window is excluded, through the theorem at a concrete parse function. -/
theorem C5_lookback_filter_witness :
    ({ created_at := some "TS" } : Entry) ∉
      fetch_digests_with_lookback
        (fun s => if s = "TS" then some (.naive 100) else none) 1000 50
        [{ created_at := some "TS" }] :=
  (C5_lookback_filter (fun s => if s = "TS" then some (.naive 100) else none)
      1000 50 [{ created_at := some "TS" }] { created_at := some "TS" }).2
    "TS" 100 rfl (by decide) (by decide)

end KashStash
